import Mathlib

/-!
Shallow embedding of the Vechnost backend core (src/main.py, src/schemas.py):
order creation and pricing, payment-webhook reconciliation, the top-ranking
aggregation, and the tools.calc helper.

Modelling conventions: money is exact rational arithmetic; the source's
`round(x, 2)` is modelled as round-half-even to two decimal places (Python's
`round` rounds half to even).  The document store is modelled as lists of
records: `find_one` is `List.find?` (first match), `insert_one` appends, and
`update_one` updates the first matching record.  Clock readings and generated
order ids, which the source obtains from `datetime.now` and the bson driver,
are passed as explicit arguments.  Errors model `HTTPException`: raising
before any write returns the store unchanged.
-/

namespace Vechnost

/-- Hexadecimal character test, as used by bson ObjectId string validation. -/
def isHexChar (c : Char) : Bool :=
  c.isDigit || ('a' ≤ c && c ≤ 'f') || ('A' ≤ c && c ≤ 'F')

/-- Validity of a bson ObjectId string: 24 hexadecimal characters.  This is
what `bson.ObjectId` accepts for string input; `oid` in src/main.py raises
HTTPException 400 ("Invalid id") exactly when this fails. -/
def isValidOid (s : String) : Bool :=
  s.length == 24 && s.toList.all isHexChar

/-- Error kinds surfaced by the endpoints (HTTPException status codes
400 and 404). -/
inductive Err where
  | badRequest
  | notFound
  deriving DecidableEq, Repr

/-- Fulfillment provider (schemas.py `Product.provider`, `Order.provider`). -/
inductive Provider where
  | vip
  | digiflazz
  | manual
  deriving DecidableEq, Repr

/-- Payment gateway (schemas.py `PaymentMethod.gateway`). -/
inductive Gateway where
  | tripay
  | tokopay
  | manual
  deriving DecidableEq, Repr

/-- Order status values (schemas.py `Order.status`). -/
inductive Status where
  | pending
  | paid
  | processing
  | success
  | failed
  | refunded
  deriving DecidableEq, Repr

/-- Statuses a webhook may set (src/main.py `WebhookIn.status`). -/
inductive WStatus where
  | paid
  | failed
  | pending
  deriving DecidableEq, Repr

/-- Inclusion of webhook statuses into order statuses. -/
def WStatus.toStatus : WStatus → Status
  | .paid => Status.paid
  | .failed => Status.failed
  | .pending => Status.pending

/-- Product type (schemas.py `Product.type`). -/
inductive PType where
  | game_topup
  | pulsa
  | data
  | joki_ml
  | joki_roblox
  | voucher
  | premium_account
  deriving DecidableEq, Repr

/-- Nearest integer, ties to even: the rounding Python's builtin `round`
performs. -/
def roundHalfEven (x : ℚ) : ℤ :=
  if x - (⌊x⌋ : ℚ) < 1 / 2 then ⌊x⌋
  else if 1 / 2 < x - (⌊x⌋ : ℚ) then ⌊x⌋ + 1
  else if ⌊x⌋ % 2 = 0 then ⌊x⌋ else ⌊x⌋ + 1

/-- `round(x, 2)` of the source: round to two decimal places. -/
def roundTo2 (x : ℚ) : ℚ :=
  (roundHalfEven (x * 100) : ℚ) / 100

/-- A product document (schemas.py `Product`, plus its collection `_id`). -/
structure Product where
  id : String
  title : String
  description : Option String
  price : ℚ
  category_id : Option String
  type : PType
  provider : Option Provider
  is_active : Bool
  tags : List String
  deriving DecidableEq, Repr

/-- A payment-method document (schemas.py `PaymentMethod`). -/
structure PaymentMethod where
  name : String
  code : String
  gateway : Option Gateway
  fee_percent : ℚ
  fee_flat : ℚ
  is_active : Bool
  deriving DecidableEq, Repr

/-- The order request body (schemas.py `Order`, as validated by FastAPI for
POST /api/orders). -/
structure OrderIn where
  user_id : Option String
  product_id : String
  amount : ℤ
  target_id : Option String
  status : Status
  provider : Option Provider
  payment_method_code : Option String
  payment_reference : Option String
  payment_url : Option String
  total_price : ℚ
  note : Option String
  deriving DecidableEq, Repr

/-- A persisted order document: the request body fields together with the
server-set `_id`, resolved provider, and timestamps (src/main.py
`create_order`'s `payload`). -/
structure OrderDoc where
  id : String
  user_id : Option String
  product_id : String
  amount : ℤ
  target_id : Option String
  status : Status
  provider : Provider
  payment_method_code : Option String
  payment_reference : Option String
  payment_url : Option String
  total_price : ℚ
  note : Option String
  created_at : ℕ
  updated_at : ℕ
  deriving DecidableEq, Repr

/-- The collections the core reads and writes. -/
structure State where
  products : List Product
  paymentmethods : List PaymentMethod
  orders : List OrderDoc
  deriving DecidableEq, Repr

/-- Response of POST /api/orders. -/
structure CreateOut where
  id : String
  payment_url : Option String
  total_price : ℚ
  deriving DecidableEq, Repr

/-- `update_one`: rewrite the first record matching the filter. -/
def updateFirst (p : α → Bool) (f : α → α) : List α → List α
  | [] => []
  | x :: xs => if p x then f x :: xs else x :: updateFirst p f xs

/-- Payment-method resolution in `create_order`: the guard
`if order.payment_method_code:` is Python truthiness, so an absent or empty
code skips the lookup entirely (no fee, no mock URL); otherwise
`find_one({"code": code, "is_active": True})`. -/
def lookupPM (st : State) (code? : Option String) : Option PaymentMethod :=
  match code? with
  | none => none
  | some code =>
      if code = "" then none
      else st.paymentmethods.find? (fun m => decide (m.code = code) && m.is_active)

/-- The fee formula of `create_order`: with an active method the total is
`base + base * fee_percent / 100 + fee_flat`, otherwise the base alone. -/
def feeTotal (base : ℚ) (pm : Option PaymentMethod) : ℚ :=
  match pm with
  | some m => base + base * m.fee_percent / 100 + m.fee_flat
  | none => base

/-- The document `create_order` inserts: the request body, with status forced
to "pending", provider resolved (explicit, else product's, else "manual"),
the computed total price, and fresh timestamps. -/
def newOrderDoc (order : OrderIn) (newId : String) (now : ℕ) (prod : Product)
    (total_price : ℚ) : OrderDoc :=
  { id := newId
    user_id := order.user_id
    product_id := order.product_id
    amount := order.amount
    target_id := order.target_id
    status := Status.pending
    provider :=
      match order.provider with
      | some p => p
      | none =>
          match prod.provider with
          | some p => p
          | none => Provider.manual
    payment_method_code := order.payment_method_code
    payment_reference := order.payment_reference
    payment_url := order.payment_url
    total_price := total_price
    note := order.note
    created_at := now
    updated_at := now }

/-- Printable gateway name, for the mock payment URL. -/
def gatewayName : Gateway → String
  | .tripay => "tripay"
  | .tokopay => "tokopay"
  | .manual => "manual"

/-- The mock payment URL of `create_order`: synthesized only when the resolved
method's gateway is tripay or tokopay. -/
def mockPayUrl (pm : Option PaymentMethod) (orderId : String) : Option String :=
  match pm with
  | some m =>
      if m.gateway = some Gateway.tripay ∨ m.gateway = some Gateway.tokopay then
        some ("https://pay.mock/" ++ gatewayName (m.gateway.getD Gateway.manual)
          ++ "/" ++ orderId)
      else none
  | none => none

/-- Body of `create_order` after the product has been resolved: compute the
price, insert the order document, then (second write) set the mock payment URL
on it when a gateway method was used. -/
def createOrderWith (st : State) (order : OrderIn) (newId : String) (now : ℕ)
    (prod : Product) : Except Err CreateOut × State :=
  let base : ℚ := prod.price * (order.amount : ℚ)
  let pm := lookupPM st order.payment_method_code
  let total := feeTotal base pm
  let doc := newOrderDoc order newId now prod (roundTo2 total)
  let payUrl := mockPayUrl pm newId
  let orders2 :=
    match payUrl with
    | some u =>
        updateFirst (fun o => decide (o.id = newId))
          (fun o => { o with payment_url := some u }) (st.orders ++ [doc])
    | none => st.orders ++ [doc]
  (Except.ok { id := newId, payment_url := payUrl, total_price := roundTo2 total },
   { st with orders := orders2 })

/-- POST /api/orders (src/main.py `create_order`).  `newId` is the ObjectId
the driver generates for the insert, `now` the clock reading.  A malformed
product id makes `oid` raise 400; a well-formed id with no matching product
raises 404; both happen before any write. -/
def create_order (st : State) (order : OrderIn) (newId : String) (now : ℕ) :
    Except Err CreateOut × State :=
  if isValidOid order.product_id then
    match st.products.find? (fun p => decide (p.id = order.product_id)) with
    | none => (Except.error Err.notFound, st)
    | some prod => createOrderWith st order newId now prod
  else (Except.error Err.badRequest, st)

/-- Python's `a or b` on optional strings: the body reference wins unless it
is falsy (absent or empty). -/
def strOr (a b : Option String) : Option String :=
  match a with
  | some s => if s = "" then b else some s
  | none => b

/-- The effective webhook reference: body reference, else query-string
reference; `if not ref` treats an absent or empty result as missing. -/
def refOf (body q : Option String) : Option String :=
  match strOr body q with
  | none => none
  | some r => if r = "" then none else some r

/-- The webhook's order lookup: by stored `payment_reference`, then (fallback)
by the reference interpreted as an order id.  `oid` raising on a malformed
reference is caught and treated as no match. -/
def matchOrder (orders : List OrderDoc) (r : String) : Option OrderDoc :=
  match orders.find? (fun o => decide (o.payment_reference = some r)) with
  | some o => some o
  | none =>
      if isValidOid r then orders.find? (fun o => decide (o.id = r)) else none

/-- The webhook's `$set`: status and updated_at only. -/
def setStatus (s : Status) (now : ℕ) (o : OrderDoc) : OrderDoc :=
  { o with status := s, updated_at := now }

/-- Webhook body after the reference has been resolved: match an order or 404,
then update its status and timestamp. -/
def webhookApply (st : State) (r : String) (s : WStatus) (now : ℕ) :
    Except Err Unit × State :=
  match matchOrder st.orders r with
  | none => (Except.error Err.notFound, st)
  | some o =>
      (Except.ok (),
       { st with
          orders := updateFirst (fun x => decide (x.id = o.id))
            (setStatus s.toStatus now) st.orders })

/-- POST /api/payment/tripay/webhook and /api/payment/tokopay/webhook
(src/main.py `payment_webhook`): reference from body or query string, 400 when
missing, then reconcile. -/
def payment_webhook (st : State) (reference queryRef : Option String)
    (s : WStatus) (now : ℕ) : Except Err Unit × State :=
  match refOf reference queryRef with
  | none => (Except.error Err.badRequest, st)
  | some r => webhookApply st r s now

/-- POST /api/tools/calc (src/main.py `calc_total`): pure fee estimation, no
store access. -/
def calc_total (price : ℚ) (amount : ℤ) (fee_percent fee_flat : ℚ) : ℚ × ℚ :=
  let base := price * (amount : ℚ)
  let total := base + base * fee_percent / 100 + fee_flat
  (roundTo2 base, roundTo2 total)

/-- One group produced by the `$group` stage of `top_ranking`: the product id,
the order count (`$sum: 1`) and the revenue (`$sum: "$total_price"`). -/
structure RankGroup where
  key : String
  orders : ℕ
  revenue : ℚ
  deriving DecidableEq, Repr

/-- One entry of the GET /api/top response. -/
structure RankEntry where
  product_id : String
  product_title : Option String
  orders : ℕ
  revenue : ℚ
  deriving DecidableEq, Repr

/-- The `$group` stage: one group per distinct product id, counting the orders
for it and summing their total prices. -/
def groupOrders (orders : List OrderDoc) : List RankGroup :=
  ((orders.map (fun o => o.product_id)).dedup).map (fun k =>
    { key := k
      orders := (orders.filter (fun o => decide (o.product_id = k))).length
      revenue :=
        ((orders.filter (fun o => decide (o.product_id = k))).map
          (fun o => o.total_price)).sum })

/-- The `$sort: {orders: -1}` order: count descending. -/
def rankGE (a b : RankGroup) : Prop := b.orders ≤ a.orders

instance : DecidableRel rankGE :=
  fun a b => inferInstanceAs (Decidable (b.orders ≤ a.orders))

instance : IsTotal RankGroup rankGE :=
  ⟨fun a b => Nat.le_total b.orders a.orders⟩

instance : IsTrans RankGroup rankGE :=
  ⟨fun _ _ _ hab hbc => Nat.le_trans hbc hab⟩

/-- Title resolution in the `top_ranking` output loop: skipped for a falsy
(empty) key, `oid` raises 400 on a malformed key, otherwise the title of the
product when it still exists. -/
def resolveTitle (st : State) (k : String) : Except Err (Option String) :=
  if k = "" then Except.ok none
  else if isValidOid k then
    Except.ok ((st.products.find? (fun p => decide (p.id = k))).map
      (fun p => p.title))
  else Except.error Err.badRequest

/-- The output loop of `top_ranking`: resolve each group's product title and
round its revenue to two decimals. -/
def renderGroups (st : State) : List RankGroup → Except Err (List RankEntry)
  | [] => Except.ok []
  | g :: gs =>
      match resolveTitle st g.key, renderGroups st gs with
      | Except.ok t, Except.ok rest =>
          Except.ok ({ product_id := g.key, product_title := t,
                       orders := g.orders, revenue := roundTo2 g.revenue } :: rest)
      | Except.error e, _ => Except.error e
      | _, Except.error e => Except.error e

/-- GET /api/top (src/main.py `top_ranking`): group all orders by product id,
sort by order count descending, truncate to `limit`, then render. -/
def top_ranking (st : State) (limit : ℕ) : Except Err (List RankEntry) :=
  renderGroups st ((List.insertionSort rankGE (groupOrders st.orders)).take limit)

/-- Agreement of two order documents on every field other than `status` and
`updated_at`. -/
def frameAgree (a b : OrderDoc) : Prop :=
  a.id = b.id ∧ a.user_id = b.user_id ∧ a.product_id = b.product_id ∧
  a.amount = b.amount ∧ a.target_id = b.target_id ∧ a.provider = b.provider ∧
  a.payment_method_code = b.payment_method_code ∧
  a.payment_reference = b.payment_reference ∧ a.payment_url = b.payment_url ∧
  a.total_price = b.total_price ∧ a.note = b.note ∧ a.created_at = b.created_at

/-- An order document with its update timestamp scrubbed, for statements that
hold modulo `updated_at`. -/
def eraseTime (o : OrderDoc) : OrderDoc :=
  { o with updated_at := 0 }

/-! Concrete fixtures used to evaluate the endpoints on sample stores. -/

def pidA : String := "aaaaaaaaaaaaaaaaaaaaaaaa"

def pidB : String := "bbbbbbbbbbbbbbbbbbbbbbbb"

def pidT : String := "0123456789abcdef01234567"

def pidZ : String := "dddddddddddddddddddddddd"

def nid1 : String := "cccccccccccccccccccccccc"

def oidW : String := "eeeeeeeeeeeeeeeeeeeeeeee"

def prodA : Product :=
  { id := pidA, title := "Diamonds", description := none, price := 100000,
    category_id := none, type := PType.game_topup,
    provider := some Provider.manual, is_active := true, tags := [] }

def prodB : Product :=
  { prodA with id := pidB, title := "ProdB", price := 50 }

def prodT : Product :=
  { prodA with id := pidT, price := 1 / 1000 }

def pmQris : PaymentMethod :=
  { name := "QRIS", code := "qris", gateway := some Gateway.tripay,
    fee_percent := 2, fee_flat := 1000, is_active := true }

def pmZero : PaymentMethod :=
  { name := "Free", code := "free", gateway := some Gateway.manual,
    fee_percent := 0, fee_flat := 0, is_active := true }

def inpA : OrderIn :=
  { user_id := none, product_id := pidA, amount := 2, target_id := none,
    status := Status.pending, provider := none,
    payment_method_code := some "qris", payment_reference := none,
    payment_url := none, total_price := 0, note := none }

def inpT : OrderIn :=
  { inpA with product_id := pidT, amount := 1, payment_method_code := some "free" }

def inpN : OrderIn :=
  { inpA with payment_method_code := none }

def stA : State :=
  { products := [prodA], paymentmethods := [pmQris], orders := [] }

def stT : State :=
  { products := [prodT], paymentmethods := [pmZero], orders := [] }

def outT : CreateOut :=
  { id := nid1, payment_url := none, total_price := 0 }

def pmEmpty : PaymentMethod :=
  { name := "Empty", code := "", gateway := some Gateway.tripay,
    fee_percent := 2, fee_flat := 1000, is_active := true }

def stE : State :=
  { products := [prodA], paymentmethods := [pmEmpty], orders := [] }

def baseOrder : OrderDoc :=
  { id := oidW, user_id := none, product_id := pidA, amount := 1,
    target_id := none, status := Status.pending, provider := Provider.manual,
    payment_method_code := none, payment_reference := some "ref1",
    payment_url := none, total_price := 10, note := none,
    created_at := 0, updated_at := 0 }

def stW : State :=
  { products := [], paymentmethods := [], orders := [baseOrder] }

def stW2 : State :=
  { stW with orders := [{ baseOrder with status := Status.paid, updated_at := 5 }] }

def oR1 : OrderDoc :=
  { baseOrder with
    id := "f00000000000000000000001", product_id := pidA,
    payment_reference := none, total_price := 7 }

def oR2 : OrderDoc :=
  { baseOrder with
    id := "f00000000000000000000002", product_id := pidB,
    payment_reference := none, total_price := 10 }

def oR3 : OrderDoc :=
  { baseOrder with
    id := "f00000000000000000000003", product_id := pidB,
    payment_reference := none, total_price := 15 }

def rankState : State :=
  { products := [prodA, prodB], paymentmethods := [], orders := [oR1, oR2, oR3] }

def rl6 : List RankEntry :=
  [{ product_id := pidB, product_title := some "ProdB", orders := 2, revenue := 25 }]

/-! Arithmetic facts about the rounding. -/

/-- Any integer lower bound of `x` bounds its half-even rounding. -/
theorem le_roundHalfEven {k : ℤ} {x : ℚ} (h : (k : ℚ) ≤ x) :
    k ≤ roundHalfEven x := by
  have hk : k ≤ ⌊x⌋ := Int.le_floor.mpr h
  unfold roundHalfEven
  split_ifs <;> omega

/-- Rounding to two decimals cannot drop below a bound that is itself a whole
number of hundredths. -/
theorem le_roundTo2 {k : ℤ} {b v : ℚ} (hb : (k : ℚ) = 100 * b) (hv : b ≤ v) :
    b ≤ roundTo2 v := by
  have h1 : (k : ℚ) ≤ v * 100 := by rw [hb]; linarith
  have h2 : (k : ℚ) ≤ (roundHalfEven (v * 100) : ℚ) :=
    Int.cast_le.mpr (le_roundHalfEven h1)
  unfold roundTo2
  have hb' : b = (k : ℚ) / 100 := by linarith
  rw [hb']
  linarith

/-! Properties of `updateFirst`. -/

/-- Updating a freshly appended record leaves the existing records alone. -/
theorem updateFirst_append_fresh {α : Type} (p : α → Bool) (f : α → α)
    (l : List α) (x : α) (hl : ∀ y ∈ l, p y = false) (hx : p x = true) :
    updateFirst p f (l ++ [x]) = l ++ [f x] := by
  induction l with
  | nil => simp [updateFirst, hx]
  | cons y ys ih =>
      have hy : p y = false := hl y (by simp)
      simp [updateFirst, hy, ih (fun z hz => hl z (by simp [hz]))]

/-- Success shape of `create_order`: with a well-formed product id that
resolves, it returns the rounded fee total and appends exactly one order
document carrying that total, status "pending" and fresh timestamps. -/
theorem create_order_ok (st : State) (inp : OrderIn) (newId : String) (now : ℕ)
    (P : Product)
    (hv : isValidOid inp.product_id = true)
    (hP : st.products.find? (fun p => decide (p.id = inp.product_id)) = some P)
    (hfresh : ∀ o ∈ st.orders, o.id ≠ newId) :
    ∃ d : OrderDoc,
      create_order st inp newId now =
        (Except.ok { id := newId,
                     payment_url := mockPayUrl (lookupPM st inp.payment_method_code) newId,
                     total_price := roundTo2 (feeTotal (P.price * (inp.amount : ℚ))
                       (lookupPM st inp.payment_method_code)) },
         { st with orders := st.orders ++ [d] }) ∧
      d.id = newId ∧ d.status = Status.pending ∧
      d.total_price = roundTo2 (feeTotal (P.price * (inp.amount : ℚ))
        (lookupPM st inp.payment_method_code)) ∧
      d.created_at = now ∧ d.updated_at = now ∧
      d.product_id = inp.product_id ∧ d.amount = inp.amount := by
  have hfresh' : ∀ y ∈ st.orders, (decide (y.id = newId)) = false := by
    intro y hy
    simp [hfresh y hy]
  cases hpu : mockPayUrl (lookupPM st inp.payment_method_code) newId with
  | none =>
      refine ⟨newOrderDoc inp newId now P (roundTo2 (feeTotal (P.price * (inp.amount : ℚ))
        (lookupPM st inp.payment_method_code))), ?_, rfl, rfl, rfl, rfl, rfl, rfl, rfl⟩
      simp [create_order, hv, hP, createOrderWith, hpu]
  | some u =>
      refine ⟨{ newOrderDoc inp newId now P (roundTo2 (feeTotal (P.price * (inp.amount : ℚ))
        (lookupPM st inp.payment_method_code))) with payment_url := some u },
        ?_, rfl, rfl, rfl, rfl, rfl, rfl, rfl⟩
      simp only [create_order, hv, if_true, hP, createOrderWith, hpu]
      rw [updateFirst_append_fresh _ _ _ _ hfresh' (by simp [newOrderDoc])]

/-- C1 counterexample: with product price 1/1000, amount 1, and an active
zero-fee method, the persisted/returned total 0.00 is strictly below the base
1/1000, so the claim's unconditional "total ≥ base" fails on the code. -/
theorem create_order_total_lt_base_cex :
    (create_order stT inpT nid1 0).1 = Except.ok outT ∧
    outT.total_price < prodT.price * (inpT.amount : ℚ) := by
  constructor
  · with_unfolding_all rfl
  · norm_num [outT, prodT, prodA, inpT, inpA]

/-- C1 (amended): for a product found for the order's id and an active payment
method found for the supplied non-empty code (an empty code is falsy and skips
fee application), with nonnegative price and fees, create_order returns and
persists total_price equal to
round(base + base*fee_percent/100 + fee_flat, 2) where base = price * amount,
and this total is ≥ base provided base is a whole number of hundredths. -/
theorem create_order_fee_formula (st : State) (inp : OrderIn) (newId : String)
    (now : ℕ) (P : Product) (M : PaymentMethod) (code : String)
    (hv : isValidOid inp.product_id = true)
    (hP : st.products.find? (fun p => decide (p.id = inp.product_id)) = some P)
    (hprice : 0 ≤ P.price)
    (hamt : 1 ≤ inp.amount)
    (hcode : inp.payment_method_code = some code)
    (hne : code ≠ "")
    (hM : st.paymentmethods.find? (fun m => decide (m.code = code) && m.is_active) = some M)
    (hfee : 0 ≤ M.fee_percent) (hflat : 0 ≤ M.fee_flat)
    (hfresh : ∀ o ∈ st.orders, o.id ≠ newId)
    (hcents : ∃ k : ℤ, (k : ℚ) = 100 * (P.price * (inp.amount : ℚ))) :
    ∃ out st', create_order st inp newId now = (Except.ok out, st') ∧
      out.total_price = roundTo2 (P.price * (inp.amount : ℚ)
        + (P.price * (inp.amount : ℚ)) * M.fee_percent / 100 + M.fee_flat) ∧
      (∃ d, st'.orders = st.orders ++ [d] ∧ d.id = newId ∧
        d.total_price = out.total_price) ∧
      P.price * (inp.amount : ℚ) ≤ out.total_price := by
  have hpm : lookupPM st inp.payment_method_code = some M := by
    simp [lookupPM, hcode, hne, hM]
  obtain ⟨d, hEq, hid, _, htp, _, _, _, _⟩ :=
    create_order_ok st inp newId now P hv hP hfresh
  rw [hpm] at hEq htp
  have hbase : 0 ≤ P.price * (inp.amount : ℚ) := by
    have h0 : (0 : ℚ) ≤ (inp.amount : ℚ) := by
      exact_mod_cast (by omega : (0 : ℤ) ≤ inp.amount)
    exact mul_nonneg hprice h0
  have hv2 : P.price * (inp.amount : ℚ) ≤
      feeTotal (P.price * (inp.amount : ℚ)) (some M) := by
    have h1 : 0 ≤ P.price * (inp.amount : ℚ) * M.fee_percent / 100 :=
      div_nonneg (mul_nonneg hbase hfee) (by norm_num)
    simp only [feeTotal]
    linarith
  obtain ⟨k, hk⟩ := hcents
  exact ⟨_, _, hEq, rfl, ⟨d, rfl, hid, htp⟩, le_roundTo2 hk hv2⟩

/-- C1 witness: the spec's worked example, price 100000, amount 2, fee 2% plus
1000 flat. -/
theorem create_order_fee_formula_witness :
    ∃ out st', create_order stA inpA nid1 0 = (Except.ok out, st') ∧
      out.total_price = roundTo2 (prodA.price * (inpA.amount : ℚ)
        + (prodA.price * (inpA.amount : ℚ)) * pmQris.fee_percent / 100 + pmQris.fee_flat) ∧
      (∃ d, st'.orders = stA.orders ++ [d] ∧ d.id = nid1 ∧
        d.total_price = out.total_price) ∧
      prodA.price * (inpA.amount : ℚ) ≤ out.total_price :=
  create_order_fee_formula stA inpA nid1 0 prodA pmQris "qris" rfl rfl
    (by norm_num [prodA]) (by decide) rfl (by decide) rfl
    (by norm_num [pmQris]) (by norm_num [pmQris])
    (by simp [stA]) ⟨20000000, by norm_num [prodA, inpA]⟩

/-- The spec's worked example evaluated end to end: the returned total is
exactly 205000 (and a tripay mock payment URL is attached). -/
theorem create_order_example :
    (create_order stA inpA nid1 0).1 =
      Except.ok { id := nid1,
                  payment_url := some ("https://pay.mock/tripay/" ++ nid1),
                  total_price := 205000 } := by
  with_unfolding_all rfl

/-- The truthiness corner evaluated end to end: with an empty supplied code,
the lookup is skipped even though an active method with code "" (fee 2% plus
1000 flat, tripay gateway) exists, so no fee applies and no mock payment URL
is attached. -/
theorem create_order_empty_code_example :
    (create_order stE { inpA with payment_method_code := some "" } nid1 0).1 =
      Except.ok { id := nid1, payment_url := none, total_price := 200000 } := by
  with_unfolding_all rfl

/-- C2: with no payment-method code, or a code resolving to no active method,
the persisted and returned total is round(price * amount, 2), with no
surcharge. -/
theorem create_order_no_fee (st : State) (inp : OrderIn) (newId : String)
    (now : ℕ) (P : Product)
    (hv : isValidOid inp.product_id = true)
    (hP : st.products.find? (fun p => decide (p.id = inp.product_id)) = some P)
    (_hamt : 1 ≤ inp.amount)
    (hfresh : ∀ o ∈ st.orders, o.id ≠ newId)
    (hpm : lookupPM st inp.payment_method_code = none) :
    ∃ out st', create_order st inp newId now = (Except.ok out, st') ∧
      out.total_price = roundTo2 (P.price * (inp.amount : ℚ)) ∧
      ∃ d, st'.orders = st.orders ++ [d] ∧ d.id = newId ∧
        d.total_price = roundTo2 (P.price * (inp.amount : ℚ)) := by
  obtain ⟨d, hEq, hid, _, htp, _, _, _, _⟩ :=
    create_order_ok st inp newId now P hv hP hfresh
  rw [hpm] at hEq htp
  exact ⟨_, _, hEq, rfl, d, rfl, hid, htp⟩

/-- C2 witness: same store, no payment-method code supplied. -/
theorem create_order_no_fee_witness :
    ∃ out st', create_order stA inpN nid1 0 = (Except.ok out, st') ∧
      out.total_price = roundTo2 (prodA.price * (inpN.amount : ℚ)) ∧
      ∃ d, st'.orders = stA.orders ++ [d] ∧ d.id = nid1 ∧
        d.total_price = roundTo2 (prodA.price * (inpN.amount : ℚ)) :=
  create_order_no_fee stA inpN nid1 0 prodA rfl rfl (by decide)
    (by simp [stA]) rfl

/-- C3 counterexample: a malformed product id ("X") makes `oid` raise 400
BadRequest, not the 404 NotFound the claim demands. -/
theorem create_order_invalid_pid_cex :
    create_order stA { inpA with product_id := "X" } nid1 0 =
      (Except.error Err.badRequest, stA) ∧ Err.badRequest ≠ Err.notFound :=
  ⟨rfl, by decide⟩

/-- C3 (amended): a well-formed product id matching no product fails NotFound
with the store unchanged; a malformed product id fails BadRequest, also with
the store unchanged. -/
theorem create_order_unknown_product (st : State) (inp : OrderIn)
    (newId : String) (now : ℕ) :
    (isValidOid inp.product_id = true →
      st.products.find? (fun p => decide (p.id = inp.product_id)) = none →
      create_order st inp newId now = (Except.error Err.notFound, st)) ∧
    (isValidOid inp.product_id = false →
      create_order st inp newId now = (Except.error Err.badRequest, st)) := by
  constructor
  · intro hv hP
    simp [create_order, hv, hP]
  · intro hv
    simp [create_order, hv]

/-- C3 witness: an absent (well-formed) id and a malformed id on the sample
store. -/
theorem create_order_unknown_product_witness :
    create_order stA { inpA with product_id := pidZ } nid1 0 =
      (Except.error Err.notFound, stA) ∧
    create_order stA { inpA with product_id := "XX" } nid1 0 =
      (Except.error Err.badRequest, stA) :=
  ⟨(create_order_unknown_product stA { inpA with product_id := pidZ } nid1 0).1 rfl rfl,
   (create_order_unknown_product stA { inpA with product_id := "XX" } nid1 0).2 rfl⟩

/-- C9 counterexample: tools.calc rounds the base before returning it, so for
price 1/1000 and amount 1 it returns base 0, which is not the base
price * amount = 1/1000 that order.create computes. -/
theorem calc_total_base_cex :
    (calc_total ((1 : ℚ) / 1000) 1 0 0).1 = 0 ∧
    ((1 : ℚ) / 1000 * ((1 : ℤ) : ℚ) ≠ 0) := by
  constructor
  · with_unfolding_all rfl
  · norm_num

/-- C9 (amended): tools.calc returns the same rounded total that order.create
persists for a product with that price and an active method found for a
supplied non-empty code with those fees (an empty code is falsy and skips fee
application), and returns the base rounded to two decimals (rather than the
raw base). -/
theorem calc_total_matches_create (st : State) (inp : OrderIn) (newId : String)
    (now : ℕ) (P : Product) (M : PaymentMethod) (code : String)
    (hv : isValidOid inp.product_id = true)
    (hP : st.products.find? (fun p => decide (p.id = inp.product_id)) = some P)
    (hcode : inp.payment_method_code = some code)
    (hne : code ≠ "")
    (hM : st.paymentmethods.find? (fun m => decide (m.code = code) && m.is_active) = some M)
    (hfresh : ∀ o ∈ st.orders, o.id ≠ newId) :
    ∃ out st', create_order st inp newId now = (Except.ok out, st') ∧
      out.total_price = (calc_total P.price inp.amount M.fee_percent M.fee_flat).2 ∧
      (calc_total P.price inp.amount M.fee_percent M.fee_flat).1 =
        roundTo2 (P.price * (inp.amount : ℚ)) := by
  have hpm : lookupPM st inp.payment_method_code = some M := by
    simp [lookupPM, hcode, hne, hM]
  obtain ⟨d, hEq, _⟩ := create_order_ok st inp newId now P hv hP hfresh
  rw [hpm] at hEq
  exact ⟨_, _, hEq, rfl, rfl⟩

/-- C9 witness: calc and create agree on the sample store. -/
theorem calc_total_matches_create_witness :
    ∃ out st', create_order stA inpA nid1 0 = (Except.ok out, st') ∧
      out.total_price = (calc_total prodA.price inpA.amount pmQris.fee_percent pmQris.fee_flat).2 ∧
      (calc_total prodA.price inpA.amount pmQris.fee_percent pmQris.fee_flat).1 =
        roundTo2 (prodA.price * (inpA.amount : ℚ)) :=
  calc_total_matches_create stA inpA nid1 0 prodA pmQris "qris" rfl rfl rfl
    (by decide) rfl (by simp [stA])

/-- C10: client-supplied status and total_price are ignored (the result does
not depend on them), and the persisted document always carries status
"pending", the server-computed rounded total, and the fresh timestamps. -/
theorem create_order_server_fields (st : State) (inp : OrderIn)
    (newId : String) (now : ℕ) (σ : Status) (τ : ℚ) (P : Product)
    (hv : isValidOid inp.product_id = true)
    (hP : st.products.find? (fun p => decide (p.id = inp.product_id)) = some P)
    (hfresh : ∀ o ∈ st.orders, o.id ≠ newId) :
    create_order st { inp with status := σ, total_price := τ } newId now =
      create_order st inp newId now ∧
    ∃ out st' d, create_order st inp newId now = (Except.ok out, st') ∧
      st'.orders = st.orders ++ [d] ∧
      d.status = Status.pending ∧
      d.total_price = roundTo2 (feeTotal (P.price * (inp.amount : ℚ))
        (lookupPM st inp.payment_method_code)) ∧
      d.created_at = now ∧ d.updated_at = now ∧
      out.total_price = d.total_price := by
  refine ⟨rfl, ?_⟩
  obtain ⟨d, hEq, _, hst, htp, hca, hua, _, _⟩ :=
    create_order_ok st inp newId now P hv hP hfresh
  exact ⟨_, _, d, hEq, rfl, hst, htp, hca, hua, htp.symm⟩

/-! Webhook lemmas: how `find?` and `matchOrder` interact with `updateFirst`. -/

/-- A `find?` that succeeds still succeeds after an `updateFirst` whose change
is invisible to the search predicate; it returns the old hit or its updated
version. -/
theorem find?_updateFirst_some {α : Type} (p P : α → Bool) (f : α → α)
    (hP : ∀ x, P (f x) = P x) :
    ∀ (l : List α) (o : α), l.find? P = some o →
      (updateFirst p f l).find? P = some o ∨
      (updateFirst p f l).find? P = some (f o) := by
  intro l
  induction l with
  | nil =>
      intro o h
      simp at h
  | cons x xs ih =>
      intro o h
      cases hPx : P x with
      | true =>
          rw [List.find?_cons_of_pos _ hPx] at h
          cases h
          cases hpx : p x with
          | true =>
              right
              simp [updateFirst, hpx, List.find?_cons_of_pos _ ((hP x).trans hPx)]
          | false =>
              left
              simp [updateFirst, hpx, List.find?_cons_of_pos _ hPx]
      | false =>
          rw [List.find?_cons_of_neg _ (by simp [hPx])] at h
          cases hpx : p x with
          | true =>
              left
              simpa [updateFirst, hpx, List.find?_cons_of_neg,
                (hP x).trans hPx] using h
          | false =>
              rcases ih o h with h2 | h2
              · left
                simpa [updateFirst, hpx, List.find?_cons_of_neg, hPx] using h2
              · right
                simpa [updateFirst, hpx, List.find?_cons_of_neg, hPx] using h2

/-- A `find?` that fails still fails after an `updateFirst` invisible to the
search predicate. -/
theorem find?_updateFirst_none {α : Type} (p P : α → Bool) (f : α → α)
    (hP : ∀ x, P (f x) = P x) :
    ∀ l : List α, l.find? P = none → (updateFirst p f l).find? P = none := by
  intro l
  induction l with
  | nil =>
      intro h
      simp [updateFirst]
  | cons x xs ih =>
      intro h
      rw [List.find?_eq_none] at h
      have hPx : P x = false := by
        have := h x (by simp)
        simpa using this
      have hxs : xs.find? P = none := by
        rw [List.find?_eq_none]
        intro y hy
        exact h y (by simp [hy])
      cases hpx : p x with
      | true =>
          simp [updateFirst, hpx, List.find?_cons_of_neg, (hP x).trans hPx, hxs]
      | false =>
          simp [updateFirst, hpx, List.find?_cons_of_neg, hPx, ih hxs]

/-- Two successive `updateFirst`s with the same predicate, when the first
update does not change which records match, compose. -/
theorem updateFirst_updateFirst {α : Type} (p : α → Bool) (f g : α → α)
    (hp : ∀ x, p (f x) = p x) :
    ∀ l : List α, updateFirst p g (updateFirst p f l) =
      updateFirst p (fun x => g (f x)) l := by
  intro l
  induction l with
  | nil => rfl
  | cons x xs ih =>
      cases hpx : p x with
      | true => simp [updateFirst, hpx, (hp x).trans hpx]
      | false => simp [updateFirst, hpx, ih]

/-- Mapping after `updateFirst` ignores differences between two update
functions that the map cannot see. -/
theorem map_updateFirst_congr {α β : Type} (h : α → β) (p : α → Bool)
    (f g : α → α) (hfg : ∀ x, h (f x) = h (g x)) :
    ∀ l : List α, (updateFirst p f l).map h = (updateFirst p g l).map h := by
  intro l
  induction l with
  | nil => rfl
  | cons x xs ih =>
      cases hpx : p x with
      | true => simp [updateFirst, hpx, hfg x]
      | false => simp [updateFirst, hpx, ih]

/-- `frameAgree` is reflexive. -/
theorem frameAgree_self (x : OrderDoc) : frameAgree x x :=
  ⟨rfl, rfl, rfl, rfl, rfl, rfl, rfl, rfl, rfl, rfl, rfl, rfl⟩

/-- Setting status and updated_at preserves every framed field. -/
theorem frameAgree_setStatus (s : Status) (n : ℕ) (x : OrderDoc) :
    frameAgree x (setStatus s n x) :=
  ⟨rfl, rfl, rfl, rfl, rfl, rfl, rfl, rfl, rfl, rfl, rfl, rfl⟩

/-- A status update via `updateFirst` relates the store to its update by
`frameAgree`, record by record. -/
theorem forall₂_frame_updateFirst (p : OrderDoc → Bool) (s : Status) (n : ℕ) :
    ∀ l : List OrderDoc,
      List.Forall₂ frameAgree l (updateFirst p (setStatus s n) l) := by
  intro l
  induction l with
  | nil => exact List.Forall₂.nil
  | cons x xs ih =>
      cases hpx : p x with
      | true =>
          simp only [updateFirst, hpx, if_true]
          exact List.Forall₂.cons (frameAgree_setStatus s n x)
            (List.forall₂_same.mpr (fun y _ => frameAgree_self y))
      | false =>
          simp only [updateFirst, hpx, if_false]
          exact List.Forall₂.cons (frameAgree_self x) ih

/-- A matched order stays matched (up to the status update itself) after the
webhook's own `updateFirst`. -/
theorem matchOrder_updateFirst (l : List OrderDoc) (r : String) (o : OrderDoc)
    (s : Status) (n : ℕ) (h : matchOrder l r = some o) :
    matchOrder (updateFirst (fun x => decide (x.id = o.id)) (setStatus s n) l) r
      = some o ∨
    matchOrder (updateFirst (fun x => decide (x.id = o.id)) (setStatus s n) l) r
      = some (setStatus s n o) := by
  have hP1 : ∀ x : OrderDoc,
      (decide ((setStatus s n x).payment_reference = some r)) =
      (decide (x.payment_reference = some r)) := fun _ => rfl
  have hP2 : ∀ x : OrderDoc,
      (decide ((setStatus s n x).id = r)) = (decide (x.id = r)) := fun _ => rfl
  unfold matchOrder at h ⊢
  cases h1 : l.find? (fun x => decide (x.payment_reference = some r)) with
  | some o1 =>
      rw [h1] at h
      cases h
      rcases find?_updateFirst_some (fun x => decide (x.id = o.id)) _
          (setStatus s n) hP1 l o h1 with h2 | h2
      · left
        rw [h2]
      · right
        rw [h2]
  | none =>
      rw [h1] at h
      cases hv : isValidOid r with
      | false =>
          rw [hv] at h
          simp at h
      | true =>
          rw [hv] at h
          simp only [if_true] at h
          have h1' := find?_updateFirst_none (fun x => decide (x.id = o.id)) _
            (setStatus s n) hP1 l h1
          rcases find?_updateFirst_some (fun x => decide (x.id = o.id)) _
              (setStatus s n) hP2 l o h with h2 | h2
          · left
            rw [h1']
            simpa using h2
          · right
            rw [h1']
            simpa using h2

/-- C4: a successful webhook call changes its orders only in `status` and
`updated_at`; every other field of every stored order is unchanged. -/
theorem payment_webhook_frame (st : State) (b q : Option String) (s : WStatus)
    (n : ℕ) (u : Unit) (st' : State)
    (h : payment_webhook st b q s n = (Except.ok u, st')) :
    List.Forall₂ frameAgree st.orders st'.orders := by
  cases hr : refOf b q with
  | none => simp [payment_webhook, hr] at h
  | some r =>
      simp only [payment_webhook, hr] at h
      cases hm : matchOrder st.orders r with
      | none =>
          simp [webhookApply, hm] at h
      | some o =>
          simp only [webhookApply, hm, Prod.mk.injEq] at h
          obtain ⟨-, hst⟩ := h
          subst hst
          exact forall₂_frame_updateFirst _ _ _ st.orders

/-- C4 witness: reconciling the sample order by its payment reference. -/
theorem payment_webhook_frame_witness :
    List.Forall₂ frameAgree stW.orders stW2.orders :=
  payment_webhook_frame stW (some "ref1") none WStatus.paid 5 () stW2
    (by with_unfolding_all rfl)

/-- C5: reapplying the webhook with the same reference and status succeeds and
yields the same order store up to `updated_at` (idempotent modulo the
timestamp). -/
theorem payment_webhook_idempotent (st : State) (b q : Option String)
    (s : WStatus) (n1 n2 : ℕ) (u1 : Unit) (st1 : State)
    (h1 : payment_webhook st b q s n1 = (Except.ok u1, st1)) :
    ∃ st2, payment_webhook st1 b q s n2 = (Except.ok (), st2) ∧
      st2.orders.map eraseTime = st1.orders.map eraseTime := by
  cases hr : refOf b q with
  | none => simp [payment_webhook, hr] at h1
  | some r =>
      simp only [payment_webhook, hr] at h1 ⊢
      cases hm : matchOrder st.orders r with
      | none =>
          simp [webhookApply, hm] at h1
      | some o =>
          simp only [webhookApply, hm, Prod.mk.injEq] at h1
          obtain ⟨-, hst1⟩ := h1
          subst hst1
          rcases matchOrder_updateFirst st.orders r o s.toStatus n1 hm with h2 | h2
          · simp only [webhookApply, h2]
            refine ⟨_, rfl, ?_⟩
            show (updateFirst (fun x => decide (x.id = o.id))
                (setStatus s.toStatus n2)
                (updateFirst (fun x => decide (x.id = o.id))
                  (setStatus s.toStatus n1) st.orders)).map eraseTime = _
            rw [updateFirst_updateFirst (fun x : OrderDoc => decide (x.id = o.id))
              (setStatus s.toStatus n1) (setStatus s.toStatus n2) (fun _ => rfl)]
            exact map_updateFirst_congr eraseTime
              (fun x : OrderDoc => decide (x.id = o.id))
              (fun x => setStatus s.toStatus n2 (setStatus s.toStatus n1 x))
              (setStatus s.toStatus n1) (fun _ => rfl) st.orders
          · simp only [webhookApply, h2]
            refine ⟨_, rfl, ?_⟩
            have hpred : (fun x : OrderDoc =>
                decide (x.id = (setStatus s.toStatus n1 o).id)) =
                (fun x : OrderDoc => decide (x.id = o.id)) := rfl
            show (updateFirst (fun x : OrderDoc =>
                decide (x.id = (setStatus s.toStatus n1 o).id))
                (setStatus s.toStatus n2)
                (updateFirst (fun x => decide (x.id = o.id))
                  (setStatus s.toStatus n1) st.orders)).map eraseTime = _
            rw [hpred, updateFirst_updateFirst (fun x : OrderDoc => decide (x.id = o.id))
              (setStatus s.toStatus n1) (setStatus s.toStatus n2) (fun _ => rfl)]
            exact map_updateFirst_congr eraseTime
              (fun x : OrderDoc => decide (x.id = o.id))
              (fun x => setStatus s.toStatus n2 (setStatus s.toStatus n1 x))
              (setStatus s.toStatus n1) (fun _ => rfl) st.orders

/-- C5 witness: delivering the same "paid" notification twice for the sample
order. -/
theorem payment_webhook_idempotent_witness :
    ∃ st2, payment_webhook stW2 (some "ref1") none WStatus.paid 7 =
      (Except.ok (), st2) ∧
      st2.orders.map eraseTime = stW2.orders.map eraseTime :=
  payment_webhook_idempotent stW (some "ref1") none WStatus.paid 5 7 () stW2
    (by with_unfolding_all rfl)

/-- C7 counterexample: an empty-string reference matches no stored order and
is not an order id, yet the endpoint treats it as missing and fails 400
BadRequest instead of the claimed 404 NotFound. -/
theorem payment_webhook_empty_ref_cex :
    payment_webhook stW (some "") none WStatus.paid 0 =
      (Except.error Err.badRequest, stW) ∧
    Err.badRequest ≠ Err.notFound ∧
    (∀ o ∈ stW.orders, o.payment_reference ≠ some "") ∧
    (∀ o ∈ stW.orders, o.id ≠ "") := by
  refine ⟨rfl, by decide, by decide, by decide⟩

/-- C7 (amended): a non-empty effective reference matching no stored
payment_reference and no stored order id fails NotFound with no mutation; a
missing (or empty, hence falsy) reference instead fails BadRequest, also with
no mutation. -/
theorem payment_webhook_unmatched (st : State) (b q : Option String)
    (s : WStatus) (n : ℕ) :
    (∀ r, refOf b q = some r →
      (∀ o ∈ st.orders, o.payment_reference ≠ some r) →
      (∀ o ∈ st.orders, o.id ≠ r) →
      payment_webhook st b q s n = (Except.error Err.notFound, st)) ∧
    (refOf b q = none →
      payment_webhook st b q s n = (Except.error Err.badRequest, st)) := by
  constructor
  · intro r hr hpref hid
    have h1 : st.orders.find? (fun o => decide (o.payment_reference = some r)) = none := by
      rw [List.find?_eq_none]
      intro x hx
      simpa using hpref x hx
    have h2 : st.orders.find? (fun o => decide (o.id = r)) = none := by
      rw [List.find?_eq_none]
      intro x hx
      simpa using hid x hx
    have hm : matchOrder st.orders r = none := by
      simp [matchOrder, h1, h2]
    simp [payment_webhook, hr, webhookApply, hm]
  · intro hr
    simp [payment_webhook, hr]

/-- C7 witness: the spec's "abc123" example reference on the sample store. -/
theorem payment_webhook_unmatched_witness :
    payment_webhook stW (some "abc123") none WStatus.paid 0 =
      (Except.error Err.notFound, stW) ∧
    payment_webhook stW none none WStatus.paid 0 =
      (Except.error Err.badRequest, stW) :=
  ⟨(payment_webhook_unmatched stW (some "abc123") none WStatus.paid 0).1
      "abc123" rfl (by decide) (by decide),
   (payment_webhook_unmatched stW none none WStatus.paid 0).2 rfl⟩

/-- The rendering loop of `top_ranking` preserves the group count column and
ties every output entry to its group. -/
theorem renderGroups_ok (st : State) :
    ∀ (gs : List RankGroup) (l : List RankEntry),
      renderGroups st gs = Except.ok l →
      l.map (fun e => e.orders) = gs.map (fun g => g.orders) ∧
      ∀ e ∈ l, ∃ g ∈ gs, e.product_id = g.key ∧ e.orders = g.orders ∧
        e.revenue = roundTo2 g.revenue := by
  intro gs
  induction gs with
  | nil =>
      intro l h
      simp only [renderGroups, Except.ok.injEq] at h
      subst h
      exact ⟨rfl, by simp⟩
  | cons g gs ih =>
      intro l h
      cases ht : resolveTitle st g.key with
      | error e =>
          simp [renderGroups, ht] at h
      | ok t =>
          cases hr : renderGroups st gs with
          | error e =>
              simp [renderGroups, ht, hr] at h
          | ok rest =>
              simp only [renderGroups, ht, hr, Except.ok.injEq] at h
              subst h
              obtain ⟨ihm, ihmem⟩ := ih rest hr
              constructor
              · simp [ihm]
              · intro e he
                rcases List.mem_cons.mp he with he1 | he2
                · subst he1
                  exact ⟨g, by simp, rfl, rfl, rfl⟩
                · obtain ⟨g', hg', hrel⟩ := ihmem e he2
                  exact ⟨g', by simp [hg'], hrel⟩

/-- C6: whenever top_ranking returns a list, it has at most `limit` entries,
is sorted by order count descending, and each entry's count and revenue range
over all stored orders for that product regardless of status, with revenue
rounded to two decimals. -/
theorem top_ranking_props (st : State) (limit : ℕ) (l : List RankEntry)
    (h : top_ranking st limit = Except.ok l) :
    l.length ≤ limit ∧
    List.Pairwise (fun a b => b.orders ≤ a.orders) l ∧
    ∀ e ∈ l,
      e.orders = (st.orders.filter
        (fun o => decide (o.product_id = e.product_id))).length ∧
      e.revenue = roundTo2 (((st.orders.filter
        (fun o => decide (o.product_id = e.product_id))).map
          (fun o => o.total_price)).sum) := by
  unfold top_ranking at h
  obtain ⟨hmap, hmem⟩ := renderGroups_ok st _ l h
  refine ⟨?_, ?_, ?_⟩
  · have h1 : l.length =
        ((List.insertionSort rankGE (groupOrders st.orders)).take limit).length := by
      have h2 := congrArg List.length hmap
      simpa using h2
    rw [h1, List.length_take]
    exact Nat.min_le_left _ _
  · have hsort : List.Pairwise rankGE
        (List.insertionSort rankGE (groupOrders st.orders)) :=
      List.sorted_insertionSort rankGE (groupOrders st.orders)
    have hsort2 : List.Pairwise rankGE
        ((List.insertionSort rankGE (groupOrders st.orders)).take limit) :=
      List.Pairwise.sublist (List.take_sublist _ _) hsort
    have hp1 : List.Pairwise (fun a b : ℕ => b ≤ a)
        (((List.insertionSort rankGE (groupOrders st.orders)).take limit).map
          (fun g => g.orders)) :=
      (List.pairwise_map).mpr hsort2
    rw [← hmap] at hp1
    exact (List.pairwise_map).mp hp1
  · intro e he
    obtain ⟨g, hg, hpid, hord, hrev⟩ := hmem e he
    have hg1 : g ∈ List.insertionSort rankGE (groupOrders st.orders) :=
      List.take_subset _ _ hg
    have hg2 : g ∈ groupOrders st.orders :=
      (List.perm_insertionSort rankGE (groupOrders st.orders)).subset hg1
    unfold groupOrders at hg2
    rw [List.mem_map] at hg2
    obtain ⟨k, hk, hgk⟩ := hg2
    subst hgk
    constructor
    · rw [hord, hpid]
    · rw [hrev, hpid]

/-- C6 witness: three sample orders, two for product B, ranked with limit 1. -/
theorem top_ranking_props_witness :
    rl6.length ≤ 1 ∧
    List.Pairwise (fun a b => b.orders ≤ a.orders) rl6 ∧
    ∀ e ∈ rl6,
      e.orders = (rankState.orders.filter
        (fun o => decide (o.product_id = e.product_id))).length ∧
      e.revenue = roundTo2 (((rankState.orders.filter
        (fun o => decide (o.product_id = e.product_id))).map
          (fun o => o.total_price)).sum) :=
  top_ranking_props rankState 1 rl6 (by with_unfolding_all rfl)

/-- C8: with no reference in body or query string, the webhook fails 400
BadRequest and the store is unchanged. -/
theorem payment_webhook_missing_reference (st : State) (s : WStatus) (n : ℕ) :
    payment_webhook st none none s n = (Except.error Err.badRequest, st) :=
  rfl

/-- C10 witness: attempted client overrides of status and total_price on the
sample order are ignored. -/
theorem create_order_server_fields_witness :
    create_order stA { inpA with status := Status.paid, total_price := 999 } nid1 0 =
      create_order stA inpA nid1 0 ∧
    ∃ out st' d, create_order stA inpA nid1 0 = (Except.ok out, st') ∧
      st'.orders = stA.orders ++ [d] ∧
      d.status = Status.pending ∧
      d.total_price = roundTo2 (feeTotal (prodA.price * (inpA.amount : ℚ))
        (lookupPM stA inpA.payment_method_code)) ∧
      d.created_at = 0 ∧ d.updated_at = 0 ∧
      out.total_price = d.total_price :=
  create_order_server_fields stA inpA nid1 0 Status.paid 999 prodA rfl rfl
    (by simp [stA])

end Vechnost
